import Mathlib

/-!
Shallow embedding of the threema-openclaw client (TypeScript) used to check
the frozen claims C1..C10 against the source.

Conventions:
* machine bytes are `Nat` values (< 256 where it matters), byte strings are
  `List Nat`;
* 64-bit values are `Nat` with explicit `% 2^64` where overflow matters;
* fallible code returns `Option` / `Except`;
* stateful handlers are explicit state-passing functions; sends performed by
  a handler are collected in output lists.

Each definition's doc comment names the source file and lines it embeds.
-/

namespace ThreemaOpenclaw

/-- Little-endian u64 encoding, 8 bytes.
Source: `src/unnamed/part_001` lines 144-148 (`encodeU64LE`) and
`src/unnamed/part_004` lines 268-272 (`encodeFixed64LE`). -/
def encodeU64LE (value : Nat) : List Nat :=
  (List.range 8).map (fun i => value / 256 ^ i % 256)

/-- Little-endian u64 decoding of 8 bytes starting at `offset`.
Source: `src/unnamed/part_001` lines 150-155 (`decodeU64LE`). -/
def decodeU64LE (bytes : List Nat) (offset : Nat) : Option Nat :=
  if offset + 8 ≤ bytes.length then
    some (((List.range 8).map (fun i => bytes.getD (offset + i) 0 * 256 ^ i)).sum)
  else none

/-! ## C8: message-body padding (mediator-client.ts) -/

/-- Body padding before E2E encryption.
Source: `src/src/mediator-client.ts` lines 3077-3091 (`padMessageBody`).
`randByte` models `randomBytes(1)[0]` (a uniform byte in `[0,255]`).
The source throws when the computed pad length leaves `[1,255]`
(modelled by `none`); with `randByte ≤ 255` this never happens. -/
def padMessageBody (messageBody : List Nat) (randByte : Nat) : Option (List Nat) :=
  let padLength0 := max 1 randByte
  let padLength :=
    if messageBody.length + padLength0 < 32 then 32 - messageBody.length else padLength0
  if 1 ≤ padLength ∧ padLength ≤ 255 then
    some (messageBody ++ List.replicate padLength padLength)
  else none

/-- Inverse of the padding, applied to incoming message bodies.
Source: `src/src/mediator-client.ts` lines 1346-1364 (`unpadMessageBody`).
Padded bodies failing a check make the source throw (modelled by `none`). -/
def unpadMessageBody (paddedBody : List Nat) : Option (List Nat) :=
  paddedBody.getLast?.bind (fun padLength =>
    if padLength < 1 ∨ 255 < padLength ∨ paddedBody.length < padLength then none
    else
      let unpaddedLength := paddedBody.length - padLength
      if (paddedBody.drop unpaddedLength).all (fun b => b = padLength) then
        some (paddedBody.take unpaddedLength)
      else none)

theorem getLast?_replicate_succ (k m : Nat) :
    (List.replicate (m + 1) k).getLast? = some k := by
  induction m with
  | zero => rfl
  | succ p ih =>
    rw [List.replicate_succ, List.replicate_succ, List.getLast?_cons_cons,
      ← List.replicate_succ]
    exact ih

theorem getLast?_append_replicate (l : List Nat) (k n : Nat) (hn : 1 ≤ n) :
    (l ++ List.replicate n k).getLast? = some k := by
  induction l with
  | nil =>
    cases n with
    | zero => omega
    | succ m => simpa using getLast?_replicate_succ k m
  | cons a as ih =>
    cases as with
    | nil =>
      cases n with
      | zero => omega
      | succ m =>
        simp only [List.singleton_append, List.replicate_succ, List.getLast?_cons_cons] at ih ⊢
        rw [← List.replicate_succ] at ih ⊢
        exact ih
    | cons b bs =>
      simp only [List.cons_append, List.getLast?_cons_cons] at ih ⊢
      exact ih

theorem pad_core (b : List Nat) (k : Nat) (h1 : 1 ≤ k) (h2 : k ≤ 255)
    (h3 : 32 ≤ b.length + k) :
    (b ++ List.replicate k k).getLast? = some k ∧
    32 ≤ (b ++ List.replicate k k).length ∧
    (b ++ List.replicate k k).length = b.length + k ∧
    ((b ++ List.replicate k k).drop ((b ++ List.replicate k k).length - k)).all
      (fun x => x = k) = true ∧
    unpadMessageBody (b ++ List.replicate k k) = some b := by
  have hlen : (b ++ List.replicate k k).length = b.length + k := by
    simp [List.length_append, List.length_replicate]
  have hdropIdx : (b ++ List.replicate k k).length - k = b.length := by omega
  have hdrop : (b ++ List.replicate k k).drop b.length = List.replicate k k := by
    exact List.drop_left b (List.replicate k k)
  have htake : (b ++ List.replicate k k).take b.length = b := by
    exact List.take_left b (List.replicate k k)
  have hlast : (b ++ List.replicate k k).getLast? = some k :=
    getLast?_append_replicate b k k h1
  have hall : ((b ++ List.replicate k k).drop
      ((b ++ List.replicate k k).length - k)).all (fun x => x = k) = true := by
    rw [hdropIdx, hdrop]
    simp [List.all_eq_true, List.mem_replicate]
  refine ⟨hlast, by omega, hlen, hall, ?_⟩
  rw [unpadMessageBody, hlast, Option.some_bind]
  rw [if_neg (by push_neg; omega)]
  simp only [hlen]
  have hb : b.length + k - k = b.length := by omega
  rw [hb, hdrop]
  rw [if_pos (by simp [List.all_eq_true, List.mem_replicate])]
  exact congrArg some htake

/-- C8: for every message body `b` and every random byte `r`, the padded body
`p = padMessageBody b r` exists and satisfies: its last byte `k` is in
`[1,255]`, `len p ≥ 32`, `len p = len b + k`, the last `k` bytes of `p` all
equal `k`, and `unpadMessageBody p = some b` (pad-then-unpad round-trips). -/
theorem C8_pad_unpad_roundtrip (b : List Nat) (r : Nat) (hr : r ≤ 255) :
    ∃ p k, padMessageBody b r = some p ∧
      p.getLast? = some k ∧ 1 ≤ k ∧ k ≤ 255 ∧
      32 ≤ p.length ∧ p.length = b.length + k ∧
      (p.drop (p.length - k)).all (fun x => x = k) = true ∧
      unpadMessageBody p = some b := by
  by_cases hc : b.length + max 1 r < 32
  · set k := 32 - b.length with hk
    have h1 : 1 ≤ k := by omega
    have h2 : k ≤ 255 := by omega
    have h3 : 32 ≤ b.length + k := by omega
    refine ⟨b ++ List.replicate k k, k, ?_, ?_⟩
    · unfold padMessageBody
      simp only [if_pos hc]
      rw [if_pos ⟨h1, h2⟩]
    · obtain ⟨ha, hb2, hc2, hd, he⟩ := pad_core b k h1 h2 h3
      exact ⟨ha, h1, h2, hb2, hc2, hd, he⟩
  · set k := max 1 r with hk
    have h1 : 1 ≤ k := le_max_left 1 r
    have h2 : k ≤ 255 := by omega
    have h3 : 32 ≤ b.length + k := by omega
    refine ⟨b ++ List.replicate k k, k, ?_, ?_⟩
    · unfold padMessageBody
      simp only [if_neg hc]
      rw [if_pos ⟨h1, h2⟩]
    · obtain ⟨ha, hb2, hc2, hd, he⟩ := pad_core b k h1 h2 h3
      exact ⟨ha, h1, h2, hb2, hc2, hd, he⟩

/-- Witness for C8 at the concrete body `"hi"` (bytes `[104, 105]`) and random
byte 5: the pad length is forced to 30 and the round-trip recovers the body. -/
theorem C8_pad_unpad_roundtrip_witness :
    (5 : Nat) ≤ 255 ∧
    ∃ p k, padMessageBody [104, 105] 5 = some p ∧
      p.getLast? = some k ∧ 1 ≤ k ∧ k ≤ 255 ∧
      32 ≤ p.length ∧ p.length = [104, 105].length + k ∧
      (p.drop (p.length - k)).all (fun x => x = k) = true ∧
      unpadMessageBody p = some [104, 105] :=
  ⟨by decide, C8_pad_unpad_roundtrip [104, 105] 5 (by decide)⟩

/-! ## Identity normalization and the incoming-message dedupe set
(mediator-client.ts) -/

/-- One character of the identity character class `[*0-9A-Z]`.
Source: `src/src/mediator-client.ts` line 419 (regex in `normalizeIdentity`). -/
def identityCharOk (c : Char) : Bool :=
  c == '*' || decide (48 ≤ c.toNat ∧ c.toNat ≤ 57) || decide (65 ≤ c.toNat ∧ c.toNat ≤ 90)

/-- The regex test `^[*0-9A-Z]{8}$`.
Source: `src/src/mediator-client.ts` line 419. -/
def looksLikeIdentityStr (s : String) : Bool :=
  s.length == 8 && s.data.all identityCharOk

/-- ASCII upper-casing of one character; models the effect of JS
`toUpperCase` on the characters that can pass the identity regex. -/
def toUpperChar (c : Char) : Char :=
  if 97 ≤ c.toNat ∧ c.toNat ≤ 122 then Char.ofNat (c.toNat - 32) else c

/-- Whitespace test of JS `String.prototype.trim` (common whitespace). -/
def isWhitespaceChar (c : Char) : Bool :=
  c == ' ' || c == '\t' || c == '\n' || c == '\r'

/-- Strip leading and trailing whitespace from a character list. -/
def trimChars (l : List Char) : List Char :=
  ((l.dropWhile isWhitespaceChar).reverse.dropWhile isWhitespaceChar).reverse

/-- Identity normalization: trim, upper-case, then validate; the source throws
on failure (modelled by `none`).
Source: `src/src/mediator-client.ts` lines 417-423 (`normalizeIdentity`). -/
def normalizeIdentityOpt (identity : String) : Option String :=
  let normalized := String.mk ((trimChars identity.data).map toUpperChar)
  if looksLikeIdentityStr normalized then some normalized else none

/-- Dedupe capacity. Source: `src/src/mediator-client.ts` line 94. -/
def MAX_INCOMING_MESSAGE_DEDUPE : Nat := 4096

/-- Persist batching threshold. Source: `src/src/mediator-client.ts` line 96. -/
def INCOMING_MESSAGE_DEDUPE_PERSIST_EVERY : Nat := 1

/-- Persisted dedupe file name. Source: `src/src/mediator-client.ts` line 95. -/
def INCOMING_MESSAGE_DEDUPE_STATE_FILE : String := "incoming-message-dedupe.json"

/-- Path of the dedupe file under the data directory.
Source: `src/src/mediator-client.ts` lines 645-648 (`path.join`). -/
def dedupeStatePath (dataDir : String) : String :=
  dataDir ++ "/" ++ INCOMING_MESSAGE_DEDUPE_STATE_FILE

/-- Dedupe state: `keys` models the JS `Set` `seenIncomingMessageKeys`
(kept duplicate-free by the guard in `rememberIncomingMessageKey`), `order`
the insertion-order array `seenIncomingMessageOrder`, `dirtyAdds` the counter
`incomingMessageDedupeDirtyAdds`.
Source: `src/src/mediator-client.ts` lines 616-619. -/
structure DedupeState where
  keys : List String
  order : List String
  dirtyAdds : Nat
deriving Repr, DecidableEq

/-- The canonical dedupe key `IDENTITY#decimalMessageId`.
Source: `src/src/mediator-client.ts` lines 1366-1368 (`buildIncomingMessageKey`). -/
def buildIncomingMessageKey (identity : String) (messageId : Nat) : Option String :=
  (normalizeIdentityOpt identity).map (fun i => i ++ "#" ++ toString messageId)

/-- Insertion with FIFO eviction at capacity. The evicted `oldest` key is
removed from the set only when truthy (`if (oldest)` in JS skips the empty
string).
Source: `src/src/mediator-client.ts` lines 1423-1435 (`rememberIncomingMessageKey`). -/
def rememberIncomingMessageKey (s : DedupeState) (key : String) : DedupeState :=
  if key ∈ s.keys then s
  else if MAX_INCOMING_MESSAGE_DEDUPE < (s.order ++ [key]).length then
    match s.order ++ [key] with
    | [] => { s with keys := s.keys ++ [key], order := [] }
    | oldest :: rest =>
      { s with keys := if oldest = "" then s.keys ++ [key]
                       else (s.keys ++ [key]).erase oldest,
               order := rest }
  else { s with keys := s.keys ++ [key], order := s.order ++ [key] }

/-- Filesystem payload of one dedupe serialization: the JSON object
`(version, updatedAt, keys)`; `updatedAt` is wall-clock time and is omitted. -/
structure DedupeFilePayload where
  version : Nat
  keys : List String
deriving Repr, DecidableEq

/-- Filesystem operations performed by the persistence code. -/
inductive FsOp where
  | mkdirRecursive (path : String)
  | writeFile (path : String) (payload : DedupeFilePayload)
  | rename (fromPath toPath : String)
deriving Repr, DecidableEq

/-- Serialization to disk: `fs.mkdirSync(dataDir, recursive)` then one direct
`fs.writeFileSync` of the JSON payload to the final dedupe path.
Source: `src/src/mediator-client.ts` lines 1405-1421
(`persistIncomingMessageDedupeState`); `slice(-MAX)` keeps the last
`MAX_INCOMING_MESSAGE_DEDUPE` keys. -/
def persistIncomingMessageDedupeState (dataDir : String) (s : DedupeState)
    (force : Bool) : DedupeState × List FsOp :=
  if force = false ∧ s.dirtyAdds = 0 then (s, [])
  else
    ({ s with dirtyAdds := 0 },
     [FsOp.mkdirRecursive dataDir,
      FsOp.writeFile (dedupeStatePath dataDir)
        { version := 1,
          keys := s.order.drop (s.order.length - MAX_INCOMING_MESSAGE_DEDUPE) }])

/-- Record an incoming message: `false` when the key is already present
(duplicate), otherwise insert and persist once the dirty counter reaches
`INCOMING_MESSAGE_DEDUPE_PERSIST_EVERY`. `none` models the throw on an
invalid identity.
Source: `src/src/mediator-client.ts` lines 1437-1449 (`recordIncomingMessage`). -/
def recordIncomingMessage (dataDir : String) (s : DedupeState) (identity : String)
    (messageId : Nat) : Option (Bool × DedupeState × List FsOp) :=
  (buildIncomingMessageKey identity messageId).map (fun key =>
    if key ∈ s.keys then (false, s, [])
    else
      let s1 := rememberIncomingMessageKey s key
      let s2 := { s1 with dirtyAdds := s1.dirtyAdds + 1 }
      if INCOMING_MESSAGE_DEDUPE_PERSIST_EVERY ≤ s2.dirtyAdds then
        (true, (persistIncomingMessageDedupeState dataDir s2 false).fst,
          (persistIncomingMessageDedupeState dataDir s2 false).snd)
      else (true, s2, []))

/-- Well-formedness of the dedupe state: the set and the order list are
duplicate-free, contain exactly the same keys, stay within capacity, and hold
no empty key (every caller inserts non-empty keys: `recordIncomingMessage`
keys contain `#`, `loadIncomingMessageDedupeState` skips blank keys). -/
def DedupeInvariant (s : DedupeState) : Prop :=
  s.keys.Nodup ∧ s.order.Nodup ∧ (∀ k, k ∈ s.keys ↔ k ∈ s.order) ∧
  s.order.length ≤ MAX_INCOMING_MESSAGE_DEDUPE ∧ "" ∉ s.keys

theorem nodup_append_singleton {l : List String} {a : String}
    (hl : l.Nodup) (ha : a ∉ l) : (l ++ [a]).Nodup := by
  rw [List.nodup_append]
  refine ⟨hl, List.nodup_singleton a, ?_⟩
  intro x hx hx2
  simp only [List.mem_singleton] at hx2
  subst hx2
  exact ha hx

/-- C10: starting from a well-formed dedupe state, every insertion keeps the
state well-formed, the set never exceeds 4,096 entries, the membership set and
the insertion-order list always contain exactly the same keys, and an
insertion of a fresh key at full capacity evicts the oldest (first-inserted)
key. -/
theorem C10_dedupe_lru (s : DedupeState) (key : String) (h : DedupeInvariant s)
    (hkey : key ≠ "") :
    DedupeInvariant (rememberIncomingMessageKey s key) ∧
    (rememberIncomingMessageKey s key).order.length ≤ MAX_INCOMING_MESSAGE_DEDUPE ∧
    (∀ k, k ∈ (rememberIncomingMessageKey s key).keys ↔
      k ∈ (rememberIncomingMessageKey s key).order) ∧
    (key ∉ s.keys → s.order.length = MAX_INCOMING_MESSAGE_DEDUPE →
      (rememberIncomingMessageKey s key).order = s.order.tail ++ [key]) := by
  have main : DedupeInvariant (rememberIncomingMessageKey s key) ∧
      (key ∉ s.keys → s.order.length = MAX_INCOMING_MESSAGE_DEDUPE →
        (rememberIncomingMessageKey s key).order = s.order.tail ++ [key]) := by
    obtain ⟨hkn, hon, hiff, hlen, hne⟩ := h
    by_cases hmem : key ∈ s.keys
    · have hstep : rememberIncomingMessageKey s key = s := by
        unfold rememberIncomingMessageKey
        rw [if_pos hmem]
      rw [hstep]
      exact ⟨⟨hkn, hon, hiff, hlen, hne⟩, fun hk _ => absurd hmem hk⟩
    · have hko : key ∉ s.order := fun hk => hmem ((hiff key).mpr hk)
      have hkn2 : (s.keys ++ [key]).Nodup := nodup_append_singleton hkn hmem
      have hne2 : "" ∉ s.keys ++ [key] := by
        simp only [List.mem_append, List.mem_singleton]
        rintro (h1 | h1)
        · exact hne h1
        · exact hkey h1.symm
      by_cases hcap : MAX_INCOMING_MESSAGE_DEDUPE < (s.order ++ [key]).length
      · have hfull : s.order.length = MAX_INCOMING_MESSAGE_DEDUPE := by
          simp only [List.length_append, List.length_singleton] at hcap
          omega
        cases horder : s.order with
        | nil =>
          rw [horder] at hfull
          simp [MAX_INCOMING_MESSAGE_DEDUPE] at hfull
        | cons o rest =>
          have hoKeys : o ∈ s.keys :=
            (hiff o).mpr (by rw [horder]; exact List.mem_cons_self o rest)
          have hoNe : o ≠ "" := fun h0 => hne (h0 ▸ hoKeys)
          have honr : o ∉ rest := by
            have h1 := hon
            rw [horder, List.nodup_cons] at h1
            exact h1.1
          have hrestN : rest.Nodup := by
            have h1 := hon
            rw [horder, List.nodup_cons] at h1
            exact h1.2
          have hkeyO : key ≠ o := by
            intro h0
            exact hko (by rw [horder, h0]; exact List.mem_cons_self o rest)
          have hkeyRest : key ∉ rest := by
            intro h0
            exact hko (by rw [horder]; exact List.mem_cons_of_mem o h0)
          have hcap2 : MAX_INCOMING_MESSAGE_DEDUPE < (o :: (rest ++ [key])).length := by
            rw [horder, List.cons_append] at hcap
            exact hcap
          have hstep : rememberIncomingMessageKey s key =
              { s with keys := (s.keys ++ [key]).erase o, order := rest ++ [key] } := by
            have hstep0 : rememberIncomingMessageKey s key =
                { s with keys := if o = "" then s.keys ++ [key]
                                 else (s.keys ++ [key]).erase o,
                         order := rest ++ [key] } := by
              unfold rememberIncomingMessageKey
              rw [if_neg hmem, horder, List.cons_append, if_pos hcap2]
            rw [hstep0, if_neg hoNe]
          rw [hstep]
          have hfull2 : rest.length + 1 = MAX_INCOMING_MESSAGE_DEDUPE := by
            rw [horder] at hfull
            simpa using hfull
          refine ⟨⟨hkn2.erase o, nodup_append_singleton hrestN hkeyRest, ?_, ?_, ?_⟩, ?_⟩
          · intro k
            rw [hkn2.mem_erase_iff]
            simp only [List.mem_append, List.mem_singleton, hiff k, horder,
              List.mem_cons, List.not_mem_nil, or_false]
            constructor
            · rintro ⟨hko2, (ho | hr) | hk⟩
              · exact absurd ho hko2
              · exact Or.inl hr
              · exact Or.inr hk
            · rintro (hr | hk)
              · exact ⟨fun h0 => honr (h0 ▸ hr), Or.inl (Or.inr hr)⟩
              · exact ⟨hk ▸ hkeyO, Or.inr hk⟩
          · simp only [List.length_append, List.length_singleton]
            omega
          · intro h0
            exact hne2 (List.mem_of_mem_erase h0)
          · intro _ _
            rfl
      · have hstep : rememberIncomingMessageKey s key =
            { s with keys := s.keys ++ [key], order := s.order ++ [key] } := by
          unfold rememberIncomingMessageKey
          rw [if_neg hmem, if_neg hcap]
        rw [hstep]
        have hsmall : s.order.length + 1 ≤ MAX_INCOMING_MESSAGE_DEDUPE := by
          simp only [List.length_append, List.length_singleton] at hcap
          omega
        refine ⟨⟨hkn2, nodup_append_singleton hon hko, ?_, ?_, hne2⟩, ?_⟩
        · intro k
          simp only [List.mem_append, List.mem_singleton, hiff k]
        · simp only [List.length_append, List.length_singleton]
          omega
        · intro _ hfull
          omega
  exact ⟨main.1, main.1.2.2.2.1, main.1.2.2.1, main.2⟩

/-- Witness for C10: inserting the key `A#1` into the empty dedupe state. -/
theorem C10_dedupe_lru_witness :
    DedupeInvariant (rememberIncomingMessageKey ⟨[], [], 0⟩ "A#1") ∧
    (rememberIncomingMessageKey ⟨[], [], 0⟩ "A#1").order.length ≤
      MAX_INCOMING_MESSAGE_DEDUPE ∧
    (∀ k, k ∈ (rememberIncomingMessageKey ⟨[], [], 0⟩ "A#1").keys ↔
      k ∈ (rememberIncomingMessageKey ⟨[], [], 0⟩ "A#1").order) ∧
    ("A#1" ∉ (⟨[], [], 0⟩ : DedupeState).keys →
      (⟨[], [], 0⟩ : DedupeState).order.length = MAX_INCOMING_MESSAGE_DEDUPE →
      (rememberIncomingMessageKey ⟨[], [], 0⟩ "A#1").order =
        (⟨[], [], 0⟩ : DedupeState).order.tail ++ ["A#1"]) :=
  C10_dedupe_lru ⟨[], [], 0⟩ "A#1"
    ⟨List.nodup_nil, List.nodup_nil, fun k => Iff.rfl, by decide, by simp⟩
    (by decide)

/-! ## C7: dedupe persistence as filesystem operations -/

/-- Modelled from the claim wording, for comparison with the source behavior:
an "atomic replacement" writes the content to a temporary file and then
renames that temporary file over the final path. -/
def AtomicReplacePersist (ops : List FsOp) (finalPath : String) : Prop :=
  ∃ tmpPath payload, tmpPath ≠ finalPath ∧
    FsOp.writeFile tmpPath payload ∈ ops ∧
    FsOp.rename tmpPath finalPath ∈ ops

/-- C7 counterexample: adding the key `ABCDEFGH#42` to an empty dedupe set
does persist the full serialization, but through a single direct
`fs.writeFileSync` to `data/incoming-message-dedupe.json` (after a recursive
mkdir): the operation list contains no rename and no temp-file write, so the
persistence is not the atomic temp-file-plus-rename replacement the claim
states. -/
theorem C7_counterexample :
    recordIncomingMessage "data" ⟨[], [], 0⟩ "ABCDEFGH" 42 =
      some (true, ⟨["ABCDEFGH#42"], ["ABCDEFGH#42"], 0⟩,
        [FsOp.mkdirRecursive "data",
         FsOp.writeFile (dedupeStatePath "data") ⟨1, ["ABCDEFGH#42"]⟩]) ∧
    ¬ AtomicReplacePersist
        [FsOp.mkdirRecursive "data",
         FsOp.writeFile (dedupeStatePath "data") ⟨1, ["ABCDEFGH#42"]⟩]
        (dedupeStatePath "data") := by
  constructor
  · decide
  · rintro ⟨tmp, payload, hne, hw, hr⟩
    simp only [List.mem_cons, List.not_mem_nil, or_false] at hr
    rcases hr with h | h
    · exact FsOp.noConfusion h
    · exact FsOp.noConfusion h

/-- C7 amended: every addition of a fresh key to the dedupe set is followed by
a full serialization of the set as the version-1 JSON payload holding the
whole insertion-ordered key list (capped to the last 4,096 keys), but the
persistence is one direct write to `incoming-message-dedupe.json` under the
data directory, preceded by a recursive mkdir; no temporary file and no
rename are involved. -/
theorem C7_persist_on_every_add (dataDir identity : String) (messageId : Nat)
    (s : DedupeState) (key : String)
    (hkeyEq : buildIncomingMessageKey identity messageId = some key)
    (hfresh : key ∉ s.keys) :
    recordIncomingMessage dataDir s identity messageId =
      some (true,
        ⟨(rememberIncomingMessageKey s key).keys,
         (rememberIncomingMessageKey s key).order, 0⟩,
        [FsOp.mkdirRecursive dataDir,
         FsOp.writeFile (dedupeStatePath dataDir)
           ⟨1, (rememberIncomingMessageKey s key).order.drop
             ((rememberIncomingMessageKey s key).order.length -
               MAX_INCOMING_MESSAGE_DEDUPE)⟩]) ∧
    (∀ a b, FsOp.rename a b ∉
      [FsOp.mkdirRecursive dataDir,
       FsOp.writeFile (dedupeStatePath dataDir)
         ⟨1, (rememberIncomingMessageKey s key).order.drop
           ((rememberIncomingMessageKey s key).order.length -
             MAX_INCOMING_MESSAGE_DEDUPE)⟩]) := by
  constructor
  · simp only [recordIncomingMessage, hkeyEq, Option.map_some', if_neg hfresh,
      persistIncomingMessageDedupeState, INCOMING_MESSAGE_DEDUPE_PERSIST_EVERY]
    simp
  · intro a b
    simp only [List.mem_cons, List.not_mem_nil, or_false]
    rintro (h | h)
    · exact FsOp.noConfusion h
    · exact FsOp.noConfusion h

/-- Witness for C7 (amended) at the key `ABCDEFGH#42` over the empty state. -/
theorem C7_persist_on_every_add_witness :
    recordIncomingMessage "d" ⟨[], [], 0⟩ "ABCDEFGH" 42 =
      some (true,
        ⟨(rememberIncomingMessageKey ⟨[], [], 0⟩ "ABCDEFGH#42").keys,
         (rememberIncomingMessageKey ⟨[], [], 0⟩ "ABCDEFGH#42").order, 0⟩,
        [FsOp.mkdirRecursive "d",
         FsOp.writeFile (dedupeStatePath "d")
           ⟨1, (rememberIncomingMessageKey ⟨[], [], 0⟩ "ABCDEFGH#42").order.drop
             ((rememberIncomingMessageKey ⟨[], [], 0⟩ "ABCDEFGH#42").order.length -
               MAX_INCOMING_MESSAGE_DEDUPE)⟩]) ∧
    (∀ a b, FsOp.rename a b ∉
      [FsOp.mkdirRecursive "d",
       FsOp.writeFile (dedupeStatePath "d")
         ⟨1, (rememberIncomingMessageKey ⟨[], [], 0⟩ "ABCDEFGH#42").order.drop
           ((rememberIncomingMessageKey ⟨[], [], 0⟩ "ABCDEFGH#42").order.length -
             MAX_INCOMING_MESSAGE_DEDUPE)⟩]) :=
  C7_persist_on_every_add "d" "ABCDEFGH" 42 ⟨[], [], 0⟩ "ABCDEFGH#42"
    (by decide) (by simp)

/-! ## C4: reflected-frame handling (mediator-client.ts `handleReflected`) -/

/-- Outcome of decrypting (with `dgrk`) and protobuf-decoding the envelope of
one `Reflected` frame; `failure` stands for any throw in that step.
Source: `src/src/mediator-client.ts` lines 1001-1012 and the envelope variant
dispatch in lines 1012-1138. -/
inductive ReflectedDecodeResult where
  | failure
  | incomingMessage (senderIdentity : String) (messageId : Option Nat)
  | outgoingMessage
  | otherEnvelope
deriving Repr, DecidableEq

/-- Result of `handleReflected`: whether an envelope event was surfaced, the
list of `ReflectedAck` ids sent, and the updated dedupe state. -/
structure HandleReflectedResult where
  surfaced : Bool
  acks : List Nat
  state : DedupeState
deriving Repr, DecidableEq

/-- The try-block of `handleReflected`: whether an envelope event is surfaced
and the updated dedupe state. A decode failure, an invalid sender identity
(the `normalizeIdentity` throw, caught by the handler), and a duplicate
incoming message all skip surfacing; everything else surfaces once.
Source: `src/src/mediator-client.ts` lines 1001-1141. The source normalizes
the sender and passes the normalized identity to `recordIncomingMessage`,
which normalizes again; here the raw sender goes to `recordIncomingMessage`
after the same normalization check, producing the identical key. -/
def reflectedTryBlock (dataDir : String) (st : DedupeState)
    (decode : ReflectedDecodeResult) : Bool × DedupeState :=
  match decode with
  | .failure => (false, st)
  | .incomingMessage sender messageId =>
    match normalizeIdentityOpt sender with
    | none => (false, st)
    | some _ =>
      match messageId with
      | some mid =>
        match recordIncomingMessage dataDir st sender mid with
        | none => (false, st)
        | some (isNew, st2, _ops) => (isNew, st2)
      | none => (true, st)
  | .outgoingMessage => (true, st)
  | .otherEnvelope => (true, st)

/-- Handler of a `Reflected` D2M frame. The `finally` block sends exactly one
`ReflectedAck(reflectedId)` unless the frame flags set the ephemeral bit
0x0001, independently of how the try-block ended.
Source: `src/src/mediator-client.ts` lines 995-1152 (`handleReflected`);
`isEphemeral` is `(reflected.flags & 0x0001) !== 0` (line 997), the ack is
sent in the `finally` block (lines 1144-1151). -/
def handleReflected (dataDir : String) (st : DedupeState) (flags reflectedId : Nat)
    (decode : ReflectedDecodeResult) : HandleReflectedResult :=
  ⟨(reflectedTryBlock dataDir st decode).fst,
   if (flags &&& 1) ≠ 0 then [] else [reflectedId],
   (reflectedTryBlock dataDir st decode).snd⟩

/-- C4 counterexample: a `Reflected` frame with the ephemeral bit set whose
envelope decodes to a duplicate incoming message (`ABCDEFGH#42` already in the
dedupe set) is NOT surfaced, although it decodes — contradicting the claim
that with the ephemeral bit set the envelope is still surfaced whenever it
decodes. (No ack is sent, as code and claim agree.) -/
theorem C4_counterexample :
    (ReflectedDecodeResult.incomingMessage "ABCDEFGH" (some 42) ≠
      ReflectedDecodeResult.failure) ∧
    (handleReflected "data" ⟨["ABCDEFGH#42"], ["ABCDEFGH#42"], 0⟩ 1 3001
      (.incomingMessage "ABCDEFGH" (some 42))).surfaced = false ∧
    (handleReflected "data" ⟨["ABCDEFGH#42"], ["ABCDEFGH#42"], 0⟩ 1 3001
      (.incomingMessage "ABCDEFGH" (some 42))).acks = [] := by
  refine ⟨by decide, ?_, ?_⟩ <;> decide

/-- C4 amended: for every received `Reflected` frame, when the flags do not
set bit 0x0001 exactly one `ReflectedAck` with the same `reflectedId` is sent
— including for duplicate incoming messages (not surfaced) and for
decryption/decoding failures; when the ephemeral bit 0x0001 is set no
`ReflectedAck` is sent, and the envelope is surfaced provided it decodes,
its sender identity is valid, and the contained incoming message is not a
duplicate. -/
theorem C4_reflected_ack_behavior (dataDir : String) (st : DedupeState)
    (flags reflectedId : Nat) (decode : ReflectedDecodeResult) :
    ((flags &&& 1) = 0 →
      (handleReflected dataDir st flags reflectedId decode).acks = [reflectedId]) ∧
    ((flags &&& 1) ≠ 0 →
      (handleReflected dataDir st flags reflectedId decode).acks = []) ∧
    (∀ sender mid key, decode = .incomingMessage sender (some mid) →
      buildIncomingMessageKey sender mid = some key → key ∈ st.keys →
      (handleReflected dataDir st flags reflectedId decode).surfaced = false) ∧
    (decode = .failure →
      (handleReflected dataDir st flags reflectedId decode).surfaced = false) ∧
    (decode ≠ .failure →
      (∀ sender mid, decode = .incomingMessage sender mid →
        ∃ n, normalizeIdentityOpt sender = some n ∧
          ∀ m key, mid = some m → buildIncomingMessageKey sender m = some key →
            key ∉ st.keys) →
      (handleReflected dataDir st flags reflectedId decode).surfaced = true) := by
  refine ⟨?_, ?_, ?_, ?_, ?_⟩
  · intro h0
    simp only [handleReflected]
    rw [if_neg (fun hC => hC h0)]
  · intro h0
    simp only [handleReflected]
    rw [if_pos h0]
  · intro sender mid key hdec hkeyEq hmem
    subst hdec
    have hn : ∃ n, normalizeIdentityOpt sender = some n := by
      cases hn0 : normalizeIdentityOpt sender with
      | none => simp [buildIncomingMessageKey, hn0] at hkeyEq
      | some n => exact ⟨n, rfl⟩
    obtain ⟨n, hn⟩ := hn
    have hrec : recordIncomingMessage dataDir st sender mid = some (false, st, []) := by
      simp only [recordIncomingMessage, hkeyEq, Option.map_some']
      rw [if_pos hmem]
    simp only [handleReflected, reflectedTryBlock, hn, hrec]
  · intro hdec
    subst hdec
    rfl
  · intro hnf hok
    cases hdec : decode with
    | failure => exact absurd hdec hnf
    | incomingMessage sender mid =>
      obtain ⟨n, hn, hfresh⟩ := hok sender mid hdec
      cases mid with
      | none => simp only [handleReflected, reflectedTryBlock, hn]
      | some m =>
        have hkey : buildIncomingMessageKey sender m =
            some (n ++ "#" ++ toString m) := by
          simp [buildIncomingMessageKey, hn]
        have hfresh2 := hfresh m (n ++ "#" ++ toString m) rfl hkey
        have hrec : ∃ st2 ops,
            recordIncomingMessage dataDir st sender m = some (true, st2, ops) := by
          simp only [recordIncomingMessage, hkey, Option.map_some']
          rw [if_neg hfresh2]
          split
          · exact ⟨_, _, rfl⟩
          · exact ⟨_, _, rfl⟩
        obtain ⟨st2, ops, hrec⟩ := hrec
        simp only [handleReflected, reflectedTryBlock, hn, hrec]
    | outgoingMessage => simp [handleReflected, reflectedTryBlock]
    | otherEnvelope => simp [handleReflected, reflectedTryBlock]

/-- Witness for C4 (amended): a non-ephemeral duplicate incoming message over
a dedupe set already holding `ABCDEFGH#42` sends exactly the one ack 1001 and
surfaces nothing. -/
theorem C4_reflected_ack_behavior_witness :
    (handleReflected "data" ⟨["ABCDEFGH#42"], ["ABCDEFGH#42"], 0⟩ 0 1001
      (.incomingMessage "ABCDEFGH" (some 42))).acks = [1001] ∧
    (handleReflected "data" ⟨["ABCDEFGH#42"], ["ABCDEFGH#42"], 0⟩ 0 1001
      (.incomingMessage "ABCDEFGH" (some 42))).surfaced = false :=
  ⟨(C4_reflected_ack_behavior "data" ⟨["ABCDEFGH#42"], ["ABCDEFGH#42"], 0⟩ 0 1001
      (.incomingMessage "ABCDEFGH" (some 42))).1 (by decide),
   (C4_reflected_ack_behavior "data" ⟨["ABCDEFGH#42"], ["ABCDEFGH#42"], 0⟩ 0 1001
      (.incomingMessage "ABCDEFGH" (some 42))).2.2.1 "ABCDEFGH" 42 "ABCDEFGH#42"
      rfl (by decide) (by decide)⟩

/-! ## C1: CSP payload-container handling and the incoming-message ack
(src/unnamed/part_001, `CspHandler`) -/

/-- Strip trailing zero bytes, modelling
`new TextDecoder().decode(raw).replace(/\0+$/g, "")` on ASCII bytes.
Source: `src/unnamed/part_001` lines 167-169 (`decodeIdentity`). -/
def stripTrailingZeros (l : List Nat) : List Nat :=
  (l.reverse.dropWhile (fun b => b == 0)).reverse

/-- The identity byte test `[*0-9A-Z]{8}` on decoded bytes.
Source: `src/unnamed/part_001` lines 179-181 (`looksLikeIdentity`). -/
def looksLikeIdentityBytes (l : List Nat) : Bool :=
  l.length == 8 && l.all (fun b =>
    b == 42 || decide (48 ≤ b ∧ b ≤ 57) || decide (65 ≤ b ∧ b ≤ 90))

/-- Little-endian u32 decoding of 4 bytes at `offset` (DataView.getUint32). -/
def decodeU32LE (bytes : List Nat) (offset : Nat) : Nat :=
  ((List.range 4).map (fun i => bytes.getD (offset + i) 0 * 256 ^ i)).sum

/-- Parsed `IncomingMessage` (container 0x02) payload.
Source: `src/unnamed/part_001` lines 51-59 (`CspIncomingMessage`). -/
structure CspIncomingMessage where
  senderIdentity : List Nat
  receiverIdentity : Option (List Nat)
  messageId : Option Nat
  createdAt : Option Nat
  flags : Option Nat
deriving Repr, DecidableEq

/-- Parse the payload of an `IncomingMessage` container: 8-byte sender, an
optional receiver (taken only when it looks like an identity and equals our
own), then optional message id (u64-LE), created-at (u32-LE) and flags byte;
`none` models the throw on payloads shorter than 8 bytes.
Source: `src/unnamed/part_001` lines 602-645 (`parseIncomingMessage`). -/
def parseIncomingMessage (selfIdentity : List Nat) (payload : List Nat) :
    Option CspIncomingMessage :=
  if payload.length < 8 then none
  else
    let senderIdentity := stripTrailingZeros (payload.take 8)
    let step1 :=
      if 16 ≤ payload.length then
        let maybeIdentity := stripTrailingZeros ((payload.drop 8).take 8)
        if looksLikeIdentityBytes maybeIdentity ∧ maybeIdentity = selfIdentity then
          (some maybeIdentity, 16)
        else ((none : Option (List Nat)), 8)
      else ((none : Option (List Nat)), 8)
    let c1 := step1.snd
    let messageId := if c1 + 8 ≤ payload.length then decodeU64LE payload c1 else none
    let c2 := if c1 + 8 ≤ payload.length then c1 + 8 else c1
    let createdAt := if c2 + 4 ≤ payload.length then some (decodeU32LE payload c2) else none
    let c3 := if c2 + 4 ≤ payload.length then c2 + 4 else c2
    let flags := if c3 < payload.length then some (payload.getD c3 0) else none
    some ⟨senderIdentity, step1.fst, messageId, createdAt, flags⟩

/-- A container handed to `sendContainer type data` (before transport
encryption). Source: `src/unnamed/part_001` lines 281-297. -/
structure SentCspContainer where
  ctype : Nat
  payload : List Nat
deriving Repr, DecidableEq

/-- Dispatch of one decrypted CSP container (4-byte header plus data),
collecting the containers sent in response. For an incoming message
(type 0x02) carrying a message id whose flags do not include bit 0x04, the
handler sends one ack container via `sendMessageAck`, which builds the
payload `senderIdentity(8) || messageId(u64-LE)` and passes container type
0x81 to `sendContainer`. `none` models a throw (short container, short 0x81
payload, or an identity that does not re-encode to 8 bytes).
Source: `src/unnamed/part_001` lines 541-585 (`handlePayloadContainer` and
`sendMessageAck`). -/
def handlePayloadContainer (selfIdentity : List Nat) (container : List Nat) :
    Option (List SentCspContainer) :=
  if container.length < 4 then none
  else
    let ctype := container.getD 0 0
    let data := container.drop 4
    if ctype = 0x00 then some [⟨0x80, data⟩]
    else if ctype = 0x02 then
      (parseIncomingMessage selfIdentity data).bind (fun message =>
        match message.messageId with
        | some mid =>
          let sendAck := match message.flags with
            | none => true
            | some f => decide ((f &&& 0x04) = 0)
          if sendAck then
            if message.senderIdentity.length = 8 then
              some [⟨0x81, message.senderIdentity ++ encodeU64LE mid⟩]
            else none
          else some []
        | none => some [])
    else if ctype = 0x81 then
      if data.length < 16 then none else some []
    else some []

/-- C1: evaluating the handler at an `IncomingMessage` container from sender
`ABCDEFGH` with message id 42 and flags 0x00 — the handler sends exactly one
ack container whose payload is the 8-byte sender identity followed by the
message id as u64-LE, but with container type 0x81, not 0x82 as the claim
(and the handler's own `CSP_TYPE_NAMES` table, which names 0x82
`INCOMING_MESSAGE_ACK` and 0x81 `OUTGOING_MESSAGE_ACK`) requires; with flag
bit 0x04 set, no ack is sent. -/
theorem C1_incoming_ack_eval :
    handlePayloadContainer
      [84, 69, 83, 84, 73, 68, 48, 48]
      ([0x02, 0, 0, 0] ++
        ([65, 66, 67, 68, 69, 70, 71, 72] ++ [84, 69, 83, 84, 73, 68, 48, 48] ++
          [42, 0, 0, 0, 0, 0, 0, 0] ++ [0, 0, 0, 0] ++ [0x00])) =
      some [⟨0x81, [65, 66, 67, 68, 69, 70, 71, 72] ++ encodeU64LE 42⟩] ∧
    (0x81 : Nat) ≠ 0x82 ∧
    handlePayloadContainer
      [84, 69, 83, 84, 73, 68, 48, 48]
      ([0x02, 0, 0, 0] ++
        ([65, 66, 67, 68, 69, 70, 71, 72] ++ [84, 69, 83, 84, 73, 68, 48, 48] ++
          [42, 0, 0, 0, 0, 0, 0, 0] ++ [0, 0, 0, 0] ++ [0x04])) =
      some [] := by
  refine ⟨by decide, by decide, by decide⟩

/-! ## C5: CSP handshake sequence numbers (src/unnamed/part_001) -/

/-- CSP session phase.
Source: `src/unnamed/part_001` line 68 (`CspState`). -/
inductive CspPhase where
  | idle
  | waitingServerHello
  | waitingLoginAck
  | ready
  | closed
deriving Repr, DecidableEq

/-- Frames produced by the handshake, with the client sequence numbers their
nonces consumed. -/
inductive CspSentItem where
  | clientHello
  | loginFrame (loginDataSeq extensionsSeq : Nat)
  | containerFrame (ctype : Nat) (clientSeq : Nat)
deriving Repr, DecidableEq

/-- Handshake-relevant `CspHandler` state: phase, client sequence number
`csn`, server sequence number `ssn`, and the frames sent so far.
Source: `src/unnamed/part_001` lines 201-212 (`state`, `csn = 1n`, `ssn = 1n`). -/
structure CspHandshakeState where
  phase : CspPhase
  csn : Nat
  ssn : Nat
  sent : List CspSentItem
deriving Repr, DecidableEq

/-- Initial handler state. Source: `src/unnamed/part_001` lines 201-212. -/
def initCspState : CspHandshakeState := ⟨.idle, 1, 1, []⟩

/-- Step `startHandshake`: from idle, send the 48-byte ClientHello (no nonce) and
wait for the ServerHello; in any other state nothing changes (the source
throws when closed and logs otherwise).
Source: `src/unnamed/part_001` lines 235-255. -/
def cspStartHandshake (s : CspHandshakeState) : CspHandshakeState :=
  if s.phase = .idle then
    { s with phase := .waitingServerHello, sent := s.sent ++ [.clientHello] }
  else s

/-- Receipt of a valid 80-byte ServerHello (cookie distinct, box decrypts
with nonce `sck || ssn`, CCK echoed): increment `ssn`, send the login frame —
two boxes consuming the client nonces `csn` and `csn + 1` — and await the
login ack.
Source: `src/unnamed/part_001` lines 326-408 (`tryConsumeServerHello`,
`completeServerHello`, `sendLogin`, `nextClientNonce`). -/
def cspOnValidServerHello (s : CspHandshakeState) : CspHandshakeState :=
  if s.phase = .waitingServerHello then
    { s with phase := .waitingLoginAck,
             ssn := s.ssn + 1,
             csn := s.csn + 2,
             sent := s.sent ++ [.loginFrame s.csn (s.csn + 1)] }
  else s

/-- Receipt of a valid 32-byte login-ack box (decrypts with nonce
`sck || ssn`, 16-byte plaintext with zero reserved bytes): increment `ssn`,
enter `ready` and immediately send the `UnblockIncomingMessages` container
(type 0x03), which consumes the client nonce `csn`.
Source: `src/unnamed/part_001` lines 468-504 (`tryConsumeLoginAck`,
`finishHandshake`) and 281-297 (`sendContainer`), 664-668 (`nextClientNonce`). -/
def cspOnValidLoginAck (s : CspHandshakeState) : CspHandshakeState :=
  if s.phase = .waitingLoginAck then
    { s with phase := .ready,
             ssn := s.ssn + 1,
             csn := s.csn + 1,
             sent := s.sent ++ [.containerFrame 0x03 s.csn] }
  else s

/-- The scripted handshake of the claim: ClientHello out, then a valid
ServerHello and a valid LoginAck in. -/
def runScriptedCspHandshake : CspHandshakeState :=
  cspOnValidLoginAck (cspOnValidServerHello (cspStartHandshake initCspState))

/-- Number of `UnblockIncomingMessages` (type 0x03) containers among the sent
frames. -/
def countUnblockFrames (sent : List CspSentItem) : Nat :=
  (sent.filter (fun i => match i with
    | .containerFrame t _ => t == 0x03
    | _ => false)).length

/-- C5 counterexample: after the scripted handshake the client sequence
number is 4, not 3 (the `UnblockIncomingMessages` frame consumed client nonce
3 and incremented the counter), so the claimed final state
(`clientSeq = 3 ∧ serverSeq = 3 ∧ phase = Ready ∧ one Unblock`) is false. -/
theorem C5_counterexample :
    runScriptedCspHandshake.csn = 4 ∧
    ¬(runScriptedCspHandshake.csn = 3 ∧ runScriptedCspHandshake.ssn = 3 ∧
      runScriptedCspHandshake.phase = CspPhase.ready ∧
      countUnblockFrames runScriptedCspHandshake.sent = 1) := by
  refine ⟨by decide, by decide⟩

/-- C5 amended: after the scripted handshake the client sequence counter ends
at 4 — its nonces 1 and 2 were consumed by the two login boxes and nonce 3 by
the single `UnblockIncomingMessages` container — the server sequence counter
ends at 3 (nonces 1 and 2 consumed by ServerHello and LoginAck), the phase is
`ready`, and exactly one `UnblockIncomingMessages` container is produced. -/
theorem C5_handshake_final_state :
    runScriptedCspHandshake.csn = 4 ∧
    runScriptedCspHandshake.ssn = 3 ∧
    runScriptedCspHandshake.phase = CspPhase.ready ∧
    countUnblockFrames runScriptedCspHandshake.sent = 1 ∧
    runScriptedCspHandshake.sent =
      [.clientHello, .loginFrame 1 2, .containerFrame 0x03 3] := by
  refine ⟨by decide, by decide, by decide, by decide, by decide⟩

/-! ## C6: device-join protocol (src/src/device-join.ts) -/

/-- Contact entry carried in `EssentialData`.
Source: `src/src/device-join.ts` lines 81-90. -/
structure JoinContact where
  identity : String
  publicKey : List Nat
deriving Repr, DecidableEq

/-- Group entry carried in `EssentialData`.
Source: `src/src/device-join.ts` lines 94-101. -/
structure JoinGroup where
  groupId : List Nat
  creatorIdentity : String
deriving Repr, DecidableEq

/-- The fields of an `EssentialData` message that `runDeviceJoin` reads.
Source: `src/src/device-join.ts` lines 71-102. -/
structure JoinEssentialData where
  identity : String
  ck : List Nat
  cspServerGroup : String
  dgk : List Nat
  cspDeviceCookie : List Nat
  contacts : List JoinContact
  groups : List JoinGroup
deriving Repr, DecidableEq

/-- One decoded `EdToNd` message; `undecodable` models a decode throw, which
the loop logs and skips (`continue`), `unknownContent` an unrecognized
variant (logged and skipped).
Source: `src/src/device-join.ts` lines 44-127. -/
inductive EdToNdMsg where
  | beginMsg
  | blobData (idHex : String) (data : List Nat)
  | essentialData (ed : JoinEssentialData)
  | unknownContent
  | undecodable
deriving Repr, DecidableEq

/-- Protocol state of the join loop (`'done'` is expressed by returning).
Source: `src/src/device-join.ts` line 37. -/
inductive JoinState where
  | waitBegin
  | syncBlobs
deriving Repr, DecidableEq

/-- Message sent back to the existing device. -/
inductive NdToEdMsg where
  | registered
deriving Repr, DecidableEq

/-- Result assembled from `EssentialData`.
Source: `src/src/device-join.ts` lines 10-28 and 116-124. -/
structure JoinResult where
  identity : String
  clientKey : List Nat
  serverGroup : String
  deviceGroupKey : List Nat
  deviceCookie : List Nat
  contacts : List JoinContact
  groups : List JoinGroup
deriving Repr, DecidableEq

/-- The receive loop of `runDeviceJoin` over a finite incoming message list
(an exhausted list models a connection that never delivers the next message;
the source loop can then never return). `Begin` is accepted only in
`wait-begin`, `BlobData` only in `sync-blobs`; the `essentialData` branch has
no state check and returns the result after sending `Registered`.
Source: `src/src/device-join.ts` lines 33-131 (`runDeviceJoin`). -/
def runDeviceJoinLoop (msgs : List EdToNdMsg) (state : JoinState)
    (blobs : List (String × List Nat)) :
    Except String (JoinResult × List NdToEdMsg) :=
  match msgs with
  | [] => .error "Device join protocol ended without essential data"
  | m :: rest =>
    match m with
    | .undecodable => runDeviceJoinLoop rest state blobs
    | .beginMsg =>
      if state ≠ .waitBegin then .error "Received Begin in unexpected state"
      else runDeviceJoinLoop rest .syncBlobs blobs
    | .blobData idHex data =>
      if state ≠ .syncBlobs then .error "Received BlobData in unexpected state"
      else runDeviceJoinLoop rest state (blobs ++ [(idHex, data)])
    | .essentialData ed =>
      .ok (⟨ed.identity, ed.ck, ed.cspServerGroup, ed.dgk, ed.cspDeviceCookie,
            ed.contacts, ed.groups⟩, [.registered])
    | .unknownContent => runDeviceJoinLoop rest state blobs

/-- Entry point of the join protocol: start in `wait-begin` with no blobs. -/
def runDeviceJoin (msgs : List EdToNdMsg) : Except String (JoinResult × List NdToEdMsg) :=
  runDeviceJoinLoop msgs .waitBegin []

/-- C6: an `EssentialData` message arriving as the very first message — before
any `Begin` — is accepted: the join loop returns the essential data and sends
`Registered`, instead of failing with a protocol error as the claim (and the
module state machine, which guards `begin` and `blobData`) requires. -/
theorem C6_essential_before_begin_eval :
    runDeviceJoin
      [.essentialData ⟨"TESTID00", [1], "g", [2], [3], [], []⟩] =
      .ok (⟨"TESTID00", [1], "g", [2], [3], [], []⟩, [.registered]) ∧
    runDeviceJoin
      [.beginMsg, .essentialData ⟨"TESTID00", [1], "g", [2], [3], [], []⟩] =
      .ok (⟨"TESTID00", [1], "g", [2], [3], [], []⟩, [.registered]) ∧
    runDeviceJoin [.blobData "aa" [1]] =
      .error "Received BlobData in unexpected state" := by
  refine ⟨rfl, rfl, rfl⟩

/-! ## C2: direct text send ordering (mediator-client.ts `sendTextMessage`) -/

/-- CSP container type of our outgoing messages.
Source: `src/src/mediator-client.ts` line 72. -/
def CSP_CONTAINER_OUTGOING_MESSAGE : Nat := 0x01

/-- Externally visible protocol actions of one `sendTextMessage` call. -/
inductive SendEvent where
  | reflectEnvelope
  | cspSendContainer (ctype : Nat)
deriving Repr, DecidableEq

/-- Outcome of one `sendTextMessage` call: the protocol sends it performed,
in order, and whether the returned promise resolved successfully. -/
structure SendTextOutcome where
  events : List SendEvent
  resolved : Bool
deriving Repr, DecidableEq

/-- Trace model of `sendTextMessage`. `validRecipient` and `textNonEmpty`
abstract the `normalizeIdentity` and empty-text checks (throws);
`leaderAndCspReady` is `isLeader() && csp && csp.isReady()`;
`reflectAckArrives` / `cspAckArrives` say whether the awaited
`ReflectAck` and the CSP outgoing-message-ack arrive before their timeouts.
When CSP is not ready the call falls back to `sendTextMessageViaReflect`
(reflect only) and resolves on the reflect ack alone. Otherwise: reflect and
await its ack, then hand the frame to CSP as container 0x01, then await the
CSP ack.
Source: `src/src/mediator-client.ts` lines 1565-1621 (`sendTextMessage`) and
1623-1645 (`sendTextMessageViaReflect`). -/
def sendTextMessageTrace (validRecipient textNonEmpty leaderAndCspReady
    reflectAckArrives cspAckArrives : Bool) : SendTextOutcome :=
  if validRecipient = false ∨ textNonEmpty = false then ⟨[], false⟩
  else if leaderAndCspReady = false then
    ⟨[.reflectEnvelope], reflectAckArrives⟩
  else if reflectAckArrives = false then ⟨[.reflectEnvelope], false⟩
  else ⟨[.reflectEnvelope, .cspSendContainer CSP_CONTAINER_OUTGOING_MESSAGE],
        cspAckArrives⟩

/-- C2 counterexample: when the device is not leader (or CSP is not ready),
`sendTextMessage` resolves successfully after reflection alone — no frame is
ever handed to CSP and no CSP outgoing-message-ack arrives — contradicting
the claim that every successfully resolving call has handed the frame to CSP
and awaited the CSP ack. -/
theorem C2_counterexample :
    (sendTextMessageTrace true true false true false).resolved = true ∧
    SendEvent.cspSendContainer CSP_CONTAINER_OUTGOING_MESSAGE ∉
      (sendTextMessageTrace true true false true false).events := by
  refine ⟨by decide, by decide⟩

/-- C2 amended: when the device is leader with a ready CSP session, a
`sendTextMessage` call with valid recipient and non-empty text resolves
successfully exactly when both the reflect ack and the CSP
outgoing-message-ack arrive, and every successful call has reflected the
envelope first and then handed the frame to CSP as container type 0x01
(in that order). Without a ready CSP session the call resolves after
reflection only. -/
theorem C2_send_text_ordering (ra ca : Bool) :
    ((sendTextMessageTrace true true true ra ca).resolved = (ra && ca)) ∧
    ((sendTextMessageTrace true true true ra ca).resolved = true →
      (sendTextMessageTrace true true true ra ca).events =
        [.reflectEnvelope, .cspSendContainer CSP_CONTAINER_OUTGOING_MESSAGE]) ∧
    ((sendTextMessageTrace true true false ra ca).events = [.reflectEnvelope]) := by
  cases ra <;> cases ca <;> exact ⟨by decide, by decide, by decide⟩

/-- Witness for C2 (amended) with both acks arriving. -/
theorem C2_send_text_ordering_witness :
    (sendTextMessageTrace true true true true true).events =
      [SendEvent.reflectEnvelope,
       SendEvent.cspSendContainer CSP_CONTAINER_OUTGOING_MESSAGE] :=
  (C2_send_text_ordering true true).2.1 (by decide)

/-! ## C3: group fan-out (mediator-client.ts `sendGroupTextMessage`) -/

/-- One per-recipient CSP send of a group fan-out: the recipient, the logical
message id placed in the outgoing-message payload, and the nonce used to
AEAD-encrypt the body for that recipient. -/
structure GroupCspSend (ν : Type) where
  recipient : String
  messageId : Nat
  nonce : ν
deriving Repr, DecidableEq

/-- Observable result of one group text send: the reflected envelope's
message id and nonce list, and the CSP sends in fan-out order. -/
structure GroupSendResult (ν : Type) where
  reflectionMessageId : Nat
  reflectionNonces : List ν
  cspSends : List (GroupCspSend ν)
deriving Repr, DecidableEq

/-- Function `encryptE2ePayload` AEAD-encrypts with exactly the nonce it is given and
returns that nonce (copied) next to the box; only the nonce is relevant here.
Source: `src/src/mediator-client.ts` lines 3052-3074, in particular
`nonceValue = nonce` and the returned `nonce: nonceBytes`. -/
def encryptE2ePayloadNonce {ν : Type} (nonce : ν) : ν := nonce

/-- Function `createReflectionNonces count` draws `count` fresh 24-byte nonces;
`supply i` stands for the i-th draw of the CSPRNG.
Source: `src/src/mediator-client.ts` lines 2882-2887. -/
def createReflectionNonces {ν : Type} (supply : Nat → ν) (count : Nat) : List ν :=
  (List.range count).map supply

/-- Leader-with-ready-CSP path of `sendGroupTextMessage`: `members` is the
normalized, deduplicated member list with the own identity removed (lines
2544-2546). With no other members, reflect once with an empty nonce list and
perform no CSP send (lines 2553-2573). Otherwise draw one nonce per member,
reflect once carrying `nonces` (lines 2575, 2605-2617), then send one CSP
outgoing container per member where member `i` is encrypted with
`nonces[i]` (lines 2623-2650); the pairing of members with their nonces is
expressed with `zip` (the source indexes `nonces[index]`, which exists for
every index since exactly `members.length` nonces were drawn — the
missing-nonce throw is unreachable). -/
def sendGroupTextMessageModel {ν : Type} (members : List String)
    (messageId : Nat) (supply : Nat → ν) : GroupSendResult ν :=
  if members.length = 0 then
    ⟨messageId, [], []⟩
  else
    let nonces := createReflectionNonces supply members.length
    ⟨messageId, nonces,
     (members.zip nonces).map (fun p =>
       ⟨p.fst, messageId, encryptE2ePayloadNonce p.snd⟩)⟩

/-- C3: in a group fan-out all per-recipient CSP sends and the single
reflection carry the same logical message id; the list of nonces used by the
CSP sends, in fan-out order, equals the reflection envelope's nonce list
(hence the i-th reflected nonce is the nonce used to AEAD-encrypt for the
i-th recipient); the CSP sends target exactly the members in order; and for a
group with no other members the reflection carries an empty nonce list and no
CSP send occurs. -/
theorem C3_group_fanout_nonces {ν : Type} (members : List String)
    (messageId : Nat) (supply : Nat → ν) (hne : members ≠ []) :
    ((sendGroupTextMessageModel members messageId supply).reflectionMessageId
        = messageId) ∧
    ((sendGroupTextMessageModel members messageId supply).cspSends.map
        (fun send => send.messageId) =
      List.replicate members.length messageId) ∧
    ((sendGroupTextMessageModel members messageId supply).cspSends.map
        (fun send => send.nonce) =
      (sendGroupTextMessageModel members messageId supply).reflectionNonces) ∧
    ((sendGroupTextMessageModel members messageId supply).cspSends.map
        (fun send => send.recipient) = members) ∧
    (∀ l : List String, l = [] →
      (sendGroupTextMessageModel l messageId supply).reflectionNonces = [] ∧
      (sendGroupTextMessageModel l messageId supply).cspSends = []) := by
  have hlen0 : members.length ≠ 0 := fun h => hne (List.length_eq_zero.mp h)
  have hnl : (createReflectionNonces supply members.length).length =
      members.length := by
    simp [createReflectionNonces]
  have hstep : sendGroupTextMessageModel members messageId supply =
      ⟨messageId, createReflectionNonces supply members.length,
       (members.zip (createReflectionNonces supply members.length)).map (fun p =>
         ⟨p.fst, messageId, encryptE2ePayloadNonce p.snd⟩)⟩ := by
    unfold sendGroupTextMessageModel
    rw [if_neg hlen0]
  refine ⟨by rw [hstep], ?_, ?_, ?_, ?_⟩
  · rw [hstep]
    simp only [List.map_map]
    have hzl : (members.zip (createReflectionNonces supply members.length)).length
        = members.length := by
      rw [List.length_zip, hnl, Nat.min_self]
    calc (members.zip (createReflectionNonces supply members.length)).map
          ((fun send => send.messageId) ∘ (fun p : String × ν =>
            (⟨p.fst, messageId, encryptE2ePayloadNonce p.snd⟩ : GroupCspSend ν)))
        = (members.zip (createReflectionNonces supply members.length)).map
            (fun _ => messageId) := rfl
      _ = List.replicate members.length messageId := by
          rw [List.map_const', hzl]
  · rw [hstep]
    simp only [List.map_map]
    have hq : ((fun send => send.nonce) ∘ (fun p : String × ν =>
        (⟨p.fst, messageId, encryptE2ePayloadNonce p.snd⟩ : GroupCspSend ν))) =
        Prod.snd := rfl
    rw [hq]
    exact List.map_snd_zip members (createReflectionNonces supply members.length)
      (by rw [hnl])
  · rw [hstep]
    simp only [List.map_map]
    have hq : ((fun send => send.recipient) ∘ (fun p : String × ν =>
        (⟨p.fst, messageId, encryptE2ePayloadNonce p.snd⟩ : GroupCspSend ν))) =
        Prod.fst := rfl
    rw [hq]
    exact List.map_fst_zip members (createReflectionNonces supply members.length)
      (by rw [hnl])
  · intro l hl
    subst hl
    exact ⟨rfl, rfl⟩

/-- Witness for C3 at two members and the identity nonce supply. -/
theorem C3_group_fanout_nonces_witness :
    ((sendGroupTextMessageModel ["AAAAAAAA", "BBBBBBBB"] 7 (fun i => i)).cspSends.map
        (fun send => send.nonce) =
      (sendGroupTextMessageModel ["AAAAAAAA", "BBBBBBBB"] 7 (fun i => i)).reflectionNonces) ∧
    ((sendGroupTextMessageModel ["AAAAAAAA", "BBBBBBBB"] 7 (fun i => i)).cspSends.map
        (fun send => send.messageId) = List.replicate 2 7) :=
  ⟨(C3_group_fanout_nonces ["AAAAAAAA", "BBBBBBBB"] 7 (fun i => i) (by decide)).2.2.1,
   (C3_group_fanout_nonces ["AAAAAAAA", "BBBBBBBB"] 7 (fun i => i) (by decide)).2.1⟩

/-! ## C9: reaction fallback for recipients without reaction support
(src/unnamed/part_004 and mediator-client.ts `sendDirectReaction`) -/

/-- Legacy delivery-receipt statuses.
Source: `src/unnamed/part_004` lines 9-10. -/
def THREEMA_DELIVERY_RECEIPT_STATUS_ACKNOWLEDGED : Nat := 0x03

def THREEMA_DELIVERY_RECEIPT_STATUS_DECLINED : Nat := 0x04

/-- E2E message types used by the direct-reaction path (the protobuf enum
lookups fall back to these constants).
Source: `src/unnamed/part_004` lines 4-6 and `src/src/mediator-client.ts`
lines 83-85, 3580-3585, 3559-3564. -/
def E2E_DELIVERY_RECEIPT_MESSAGE_TYPE : Nat := 0x80

def E2E_REACTION_MESSAGE_TYPE : Nat := 0x82

/-- Thumbs-up emoji and its skin-tone variants.
Source: `src/unnamed/part_004` lines 14-21 (`LEGACY_ACKNOWLEDGE_EMOJIS`). -/
def LEGACY_ACKNOWLEDGE_EMOJIS : List String :=
  ["👍", "👍🏻", "👍🏼", "👍🏽", "👍🏾", "👍🏿"]

/-- Thumbs-down emoji and its skin-tone variants.
Source: `src/unnamed/part_004` lines 23-30 (`LEGACY_DECLINE_EMOJIS`). -/
def LEGACY_DECLINE_EMOJIS : List String :=
  ["👎", "👎🏻", "👎🏼", "👎🏽", "👎🏾", "👎🏿"]

/-- Reaction action. Source: `src/unnamed/part_004` line 32. -/
inductive ThreemaReactionAction where
  | apply
  | withdraw
deriving Repr, DecidableEq

/-- Reaction-support classification of a recipient from its `featureMask`.
Source: `src/src/mediator-client.ts` lines 3481-3512
(`getContactReactionSupport`). -/
inductive ReactionSupport where
  | supported
  | unsupported
  | unknown
deriving Repr, DecidableEq

/-- Map a reaction to a legacy delivery-receipt status: a withdraw never
maps; thumbs-up variants map to acknowledged (0x03), thumbs-down variants to
declined (0x04), everything else to nothing.
Source: `src/unnamed/part_004` lines 57-71 (`mapReactionToLegacyDeliveryStatus`). -/
def mapReactionToLegacyDeliveryStatus (emoji : String)
    (action : ThreemaReactionAction) : Option Nat :=
  match action with
  | .withdraw => none
  | .apply =>
    if emoji ∈ LEGACY_ACKNOWLEDGE_EMOJIS then
      some THREEMA_DELIVERY_RECEIPT_STATUS_ACKNOWLEDGED
    else if emoji ∈ LEGACY_DECLINE_EMOJIS then
      some THREEMA_DELIVERY_RECEIPT_STATUS_DECLINED
    else none

/-- UTF-8 encoding of one code point (the standard 1-4 byte scheme used by
`TextEncoder`). -/
def utf8EncodeCodepoint (n : Nat) : List Nat :=
  if n < 0x80 then [n]
  else if n < 0x800 then [0xC0 + n / 64, 0x80 + n % 64]
  else if n < 0x10000 then [0xE0 + n / 4096, 0x80 + n / 64 % 64, 0x80 + n % 64]
  else [0xF0 + n / 262144, 0x80 + n / 4096 % 64, 0x80 + n / 64 % 64, 0x80 + n % 64]

/-- UTF-8 bytes of a string (`TextEncoder.encode`). -/
def utf8Bytes (s : String) : List Nat :=
  (s.data.map (fun c => utf8EncodeCodepoint c.toNat)).flatten

/-- Emoji validity: 1 to 64 UTF-8 bytes.
Source: `src/unnamed/part_004` lines 52-55 (`isValidReactionEmojiInput`). -/
def isValidReactionEmojiInput (emoji : String) : Bool :=
  decide (0 < (utf8Bytes emoji).length ∧ (utf8Bytes emoji).length ≤ 64)

/-- Emoji normalization: trim, then validate; the source throws on failure.
Source: `src/src/mediator-client.ts` lines 3473-3479 (`normalizeReactionEmoji`). -/
def normalizeReactionEmoji (value : String) : Option String :=
  let emoji := String.mk (trimChars value.data)
  if isValidReactionEmojiInput emoji then some emoji else none

/-- Delivery-receipt body: `status:u8 || messageId:u64-LE × N`, at least one
id required; `none` models the validation throws.
Source: `src/unnamed/part_004` lines 200-219 (`encodeDeliveryReceiptBody`). -/
def encodeDeliveryReceiptBody (status : Nat) (messageIds : List Nat) :
    Option (List Nat) :=
  if 255 < status then none
  else if messageIds.length = 0 then none
  else some ((status &&& 0xff) :: (messageIds.map encodeU64LE).flatten)

/-- Protobuf base-128 varint encoding (fuel-bounded; 10 bytes cover every
64-bit value). Source: `src/unnamed/part_004` lines 281-294 (`encodeVarint`). -/
def encodeVarintAux : Nat → Nat → List Nat
  | 0, value => [value % 0x80]
  | fuel + 1, value =>
    if value < 0x80 then [value]
    else (value % 0x80 + 0x80) :: encodeVarintAux fuel (value / 0x80)

def encodeVarint (value : Nat) : List Nat :=
  encodeVarintAux 10 value

/-- Modern reaction body: `fixed64(messageId)` under field 1, the emoji bytes
len-delimited under field 2 (apply) or field 3 (withdraw); `none` models the
emoji-validity throw.
Source: `src/unnamed/part_004` lines 83-107 (`encodeReactionMessageBody`). -/
def encodeReactionMessageBody (messageId : Nat) (action : ThreemaReactionAction)
    (emoji : String) : Option (List Nat) :=
  if isValidReactionEmojiInput emoji = false then none
  else
    some (encodeVarint 0x09 ++ encodeU64LE messageId ++
      (match action with
       | .apply => encodeVarint 0x12
       | .withdraw => encodeVarint 0x1a) ++
      encodeVarint (utf8Bytes emoji).length ++ utf8Bytes emoji)

/-- What one direct reaction produced: whether anything was sent, the mode,
and the E2E message type and body handed to reflection/CSP. -/
inductive ReactionSendMode where
  | reaction
  | legacy
  | omitted
deriving Repr, DecidableEq

structure DirectReactionOutcome where
  sent : Bool
  mode : ReactionSendMode
  messageType : Option Nat
  body : Option (List Nat)
deriving Repr, DecidableEq

/-- Decision path of `sendDirectReaction`: normalize the emoji (throw on
invalid input, modelled by `none`), compute the legacy mapping, and when the
recipient does not support reactions either send a legacy delivery receipt
(mapping exists) or omit the send (no mapping); recipients with support (or
unknown support) get the modern reaction body.
Source: `src/src/mediator-client.ts` lines 1647-1685 (`sendDirectReaction`);
the body/type/flag selection is lines 1671-1685. -/
def sendDirectReactionModel (support : ReactionSupport) (emojiInput : String)
    (action : ThreemaReactionAction) (reactedMessageId : Nat) :
    Option DirectReactionOutcome :=
  (normalizeReactionEmoji emojiInput).bind (fun emoji =>
    if support = .unsupported ∧
        mapReactionToLegacyDeliveryStatus emoji action = none then
      some ⟨false, .omitted, none, none⟩
    else if support = .unsupported then
      (encodeDeliveryReceiptBody
        ((mapReactionToLegacyDeliveryStatus emoji action).getD 0)
        [reactedMessageId]).map (fun body =>
          ⟨true, .legacy, some E2E_DELIVERY_RECEIPT_MESSAGE_TYPE, some body⟩)
    else
      (encodeReactionMessageBody reactedMessageId action emoji).map (fun body =>
        ⟨true, .reaction, some E2E_REACTION_MESSAGE_TYPE, some body⟩))

theorem legacy_send_eval (e : String) (status id : Nat)
    (hnorm : normalizeReactionEmoji e = some e)
    (hmap : mapReactionToLegacyDeliveryStatus e .apply = some status)
    (hstatus : status ≤ 255) (hand : status &&& 0xff = status) :
    sendDirectReactionModel .unsupported e .apply id =
      some ⟨true, .legacy, some E2E_DELIVERY_RECEIPT_MESSAGE_TYPE,
        some (status :: encodeU64LE id)⟩ := by
  simp only [sendDirectReactionModel, hnorm, Option.some_bind, hmap]
  rw [if_neg (by simp)]
  rw [if_pos trivial]
  simp only [Option.getD_some, encodeDeliveryReceiptBody]
  rw [if_neg (by omega)]
  rw [if_neg (by simp)]
  simp [hand]

/-- C9: for a direct reaction to a recipient whose feature mask marks
reactions unsupported — a thumbs-up emoji or any of its skin-tone variants
with action apply is sent as a legacy delivery receipt with status 0x03, a
thumbs-down variant with apply as status 0x04, and any other (valid) emoji or
any withdraw yields mode omitted with nothing sent. -/
theorem C9_reaction_legacy_fallback (id : Nat) :
    (∀ e ∈ LEGACY_ACKNOWLEDGE_EMOJIS,
      sendDirectReactionModel .unsupported e .apply id =
        some ⟨true, .legacy, some E2E_DELIVERY_RECEIPT_MESSAGE_TYPE,
          some (THREEMA_DELIVERY_RECEIPT_STATUS_ACKNOWLEDGED :: encodeU64LE id)⟩) ∧
    (∀ e ∈ LEGACY_DECLINE_EMOJIS,
      sendDirectReactionModel .unsupported e .apply id =
        some ⟨true, .legacy, some E2E_DELIVERY_RECEIPT_MESSAGE_TYPE,
          some (THREEMA_DELIVERY_RECEIPT_STATUS_DECLINED :: encodeU64LE id)⟩) ∧
    (∀ e em, normalizeReactionEmoji e = some em →
      em ∉ LEGACY_ACKNOWLEDGE_EMOJIS → em ∉ LEGACY_DECLINE_EMOJIS →
      sendDirectReactionModel .unsupported e .apply id =
        some ⟨false, .omitted, none, none⟩) ∧
    (∀ e em, normalizeReactionEmoji e = some em →
      sendDirectReactionModel .unsupported e .withdraw id =
        some ⟨false, .omitted, none, none⟩) := by
  refine ⟨?_, ?_, ?_, ?_⟩
  · intro e he
    simp only [LEGACY_ACKNOWLEDGE_EMOJIS, List.mem_cons, List.not_mem_nil,
      or_false] at he
    rcases he with rfl | rfl | rfl | rfl | rfl | rfl <;>
      exact legacy_send_eval _ _ id (by decide) (by decide) (by decide) (by decide)
  · intro e he
    simp only [LEGACY_DECLINE_EMOJIS, List.mem_cons, List.not_mem_nil,
      or_false] at he
    rcases he with rfl | rfl | rfl | rfl | rfl | rfl <;>
      exact legacy_send_eval _ _ id (by decide) (by decide) (by decide) (by decide)
  · intro e em hnorm hA hD
    have hmap : mapReactionToLegacyDeliveryStatus em .apply = none := by
      simp only [mapReactionToLegacyDeliveryStatus]
      rw [if_neg hA, if_neg hD]
    simp only [sendDirectReactionModel, hnorm, Option.some_bind]
    rw [if_pos ⟨trivial, hmap⟩]
  · intro e em hnorm
    have hmap : mapReactionToLegacyDeliveryStatus em .withdraw = none := rfl
    simp only [sendDirectReactionModel, hnorm, Option.some_bind]
    rw [if_pos ⟨trivial, hmap⟩]

/-- Witness for C9 at the plain thumbs-up, a withdraw, and a non-mapped
emoji. -/
theorem C9_reaction_legacy_fallback_witness :
    sendDirectReactionModel .unsupported "👍" .apply 42 =
      some ⟨true, .legacy, some E2E_DELIVERY_RECEIPT_MESSAGE_TYPE,
        some (THREEMA_DELIVERY_RECEIPT_STATUS_ACKNOWLEDGED :: encodeU64LE 42)⟩ ∧
    sendDirectReactionModel .unsupported "👍" .withdraw 42 =
      some ⟨false, .omitted, none, none⟩ ∧
    sendDirectReactionModel .unsupported "😀" .apply 42 =
      some ⟨false, .omitted, none, none⟩ :=
  ⟨(C9_reaction_legacy_fallback 42).1 "👍" (by decide),
   (C9_reaction_legacy_fallback 42).2.2.2 "👍" "👍" (by decide),
   (C9_reaction_legacy_fallback 42).2.2.1 "😀" "😀" (by decide)
     (by decide) (by decide)⟩

end ThreemaOpenclaw
